import Mathlib

/-!
Verification development for the sepnoty-membership form-builder backend
(`server/index.js`).  The Express route handlers are shallowly embedded as
pure Lean functions over an explicit database state.  JSON request/response
payloads are modelled by the inductive `Json`; the `fields` column of the
`forms` table is modelled at the text level, with `JSON.stringify` and
`JSON.parse` embedded as `Json.stringify` and `Json.parse`.
-/

namespace Sepnoty

/-- JSON-like value: the shape of parsed request and response bodies.
Numbers are modelled as integers (the payloads relevant here are
integer-valued); `undefined` is modelled as `Option.none` at use sites. -/
inductive Json where
  | null
  | bool (b : Bool)
  | num (n : Int)
  | str (s : String)
  | arr (elems : List Json)
  | obj (entries : List (String × Json))
deriving Repr

mutual

def beqV : Json → Json → Bool
  | .null, .null => true
  | .bool a, .bool b => a == b
  | .num a, .num b => a == b
  | .str a, .str b => a == b
  | .arr a, .arr b => beqItems a b
  | .obj a, .obj b => beqKVs a b
  | _, _ => false

def beqItems : List Json → List Json → Bool
  | [], [] => true
  | a :: as, b :: bs => beqV a b && beqItems as bs
  | _, _ => false

def beqKVs : List (String × Json) → List (String × Json) → Bool
  | [], [] => true
  | (ka, va) :: as, (kb, vb) :: bs => ka == kb && beqV va vb && beqKVs as bs
  | _, _ => false

end

mutual

theorem beqV_iff : ∀ a b : Json, beqV a b = true ↔ a = b
  | .null, b => by cases b <;> simp [beqV]
  | .bool x, b => by cases b <;> simp [beqV]
  | .num x, b => by cases b <;> simp [beqV]
  | .str x, b => by cases b <;> simp [beqV]
  | .arr xs, b => by
      cases b <;> simp [beqV]
      exact beqItems_iff xs _
  | .obj xs, b => by
      cases b <;> simp [beqV]
      exact beqKVs_iff xs _

theorem beqItems_iff : ∀ a b : List Json, beqItems a b = true ↔ a = b
  | [], b => by cases b <;> simp [beqItems]
  | x :: xs, b => by
      cases b with
      | nil => simp [beqItems]
      | cons y ys =>
        simp [beqItems, Bool.and_eq_true, beqV_iff x y, beqItems_iff xs ys]

theorem beqKVs_iff : ∀ a b : List (String × Json), beqKVs a b = true ↔ a = b
  | [], b => by cases b <;> simp [beqKVs]
  | (k, v) :: xs, b => by
      cases b with
      | nil => simp [beqKVs]
      | cons y ys =>
        obtain ⟨k2, v2⟩ := y
        simp [beqKVs, Bool.and_eq_true, beqV_iff v v2, beqKVs_iff xs ys,
          and_assoc]

end

instance : DecidableEq Json := fun a b =>
  decidable_of_iff (beqV a b = true) (beqV_iff a b)

/-- JavaScript truthiness of a JSON value (`!v` is `!truthy v`). -/
def Json.truthy : Json → Bool
  | .null => false
  | .bool b => b
  | .num n => n != 0
  | .str s => s != ""
  | .arr _ => true
  | .obj _ => true

/-- JavaScript `typeof v === 'object'`: holds for `null`, arrays and
plain objects. -/
def Json.typeofObject : Json → Bool
  | .null => true
  | .arr _ => true
  | .obj _ => true
  | _ => false

/-- Is the value an array (`Array.isArray`)? -/
def Json.isArr : Json → Bool
  | .arr _ => true
  | _ => false

mutual

/-- JavaScript string coercion `String(v)` as used by template literals;
arrays coerce via `Array.prototype.join(",")`, which renders `null`
elements as empty. -/
def Json.coerceStr : Json → String
  | .null => "null"
  | .bool b => if b then "true" else "false"
  | .num n => toString n
  | .str s => s
  | .arr es => coerceJoin es
  | .obj _ => "[object Object]"

/-- Comma-join of array elements under `String` coercion. -/
def coerceJoin : List Json → String
  | [] => ""
  | e :: es =>
    (match e with
     | .null => ""
     | v => Json.coerceStr v) ++ (if es.isEmpty then "" else "," ++ coerceJoin es)

end

/-- Truthiness of a possibly-`undefined` JavaScript value. -/
def truthyOpt : Option Json → Bool
  | none => false
  | some v => v.truthy

/-- The `x || y` operator on a possibly-`undefined` left operand. -/
def jsOr (x : Option Json) (y : Json) : Json :=
  match x with
  | some v => if v.truthy then v else y
  | none => y

/-! ### JSON.stringify -/

/-- Decimal digit character. -/
def digitChar (n : Nat) : Char := Char.ofNat (48 + n)

/-- Decimal digits of a natural number, most significant first
(fuel-driven so that it evaluates by reduction; `natChars` supplies
sufficient fuel). -/
def natCharsAux : Nat → Nat → List Char
  | 0, _ => []
  | fuel + 1, n =>
    if n < 10 then [digitChar n]
    else natCharsAux fuel (n / 10) ++ [digitChar (n % 10)]

/-- Decimal rendering of a natural number as characters. -/
def natChars (n : Nat) : List Char := natCharsAux (n + 1) n

/-- Decimal rendering of an integer as characters (JavaScript numeral
form for integral numbers). -/
def intChars (n : Int) : List Char :=
  if n < 0 then '-' :: natChars (-n).toNat else natChars n.toNat

/-- Lower-case hexadecimal digit character. -/
def hexChar (n : Nat) : Char := Char.ofNat (if n < 10 then 48 + n else 87 + n)

/-- The escape sequence `JSON.stringify` emits for one character of a
string literal: quote and backslash are backslash-escaped, the five
short control escapes are used where available, remaining control
characters become `\u00xx`, and everything else is emitted verbatim. -/
def escapeChar (c : Char) : List Char :=
  if c = '"' then ['\\', '"']
  else if c = '\\' then ['\\', '\\']
  else if c = '\n' then ['\\', 'n']
  else if c = '\r' then ['\\', 'r']
  else if c = '\t' then ['\\', 't']
  else if c = Char.ofNat 8 then ['\\', 'b']
  else if c = Char.ofNat 12 then ['\\', 'f']
  else if c.toNat < 32 then
    ['\\', 'u', '0', '0', hexChar (c.toNat / 16), hexChar (c.toNat % 16)]
  else [c]

/-- Escaped body of a JSON string literal. -/
def escapeList (cs : List Char) : List Char := cs.flatMap escapeChar

mutual

/-- Characters of `JSON.stringify v` (no whitespace, keys in insertion
order, exactly as the JavaScript serializer emits). -/
def strCharsV : Json → List Char
  | .null => ['n', 'u', 'l', 'l']
  | .bool b => if b then ['t', 'r', 'u', 'e'] else ['f', 'a', 'l', 's', 'e']
  | .num n => intChars n
  | .str s => '"' :: (escapeList s.data ++ ['"'])
  | .arr es => '[' :: strCharsItems es
  | .obj kvs => '{' :: strCharsKVs kvs

/-- Serialized array elements including the closing bracket. -/
def strCharsItems : List Json → List Char
  | [] => [']']
  | e :: es =>
    strCharsV e ++ (if es.isEmpty then [']'] else ',' :: strCharsItems es)

/-- Serialized object entries including the closing brace. -/
def strCharsKVs : List (String × Json) → List Char
  | [] => ['}']
  | (k, v) :: kvs =>
    '"' :: (escapeList k.data ++ ['"', ':'] ++ strCharsV v ++
      (if kvs.isEmpty then ['}'] else ',' :: strCharsKVs kvs))

end

/-- Model of `JSON.stringify`. -/
def Json.stringify (v : Json) : String := String.mk (strCharsV v)

example : Json.stringify (.arr [.num 5, .str "ab", .bool true, .null]) =
    "[5,\"ab\",true,null]" := by decide

example : Json.stringify (.obj [("a", .num (-3)), ("b", .arr [])]) =
    "\x7b\"a\":-3,\"b\":[]\x7d" := by decide

/-! ### JSON.parse

A recursive-descent parser for the whitespace-free form emitted by
`Json.stringify` (numbers restricted to integer numerals, matching the
serializer).  Recursion is fuel-driven; `Json.parse` supplies fuel that
is sufficient for any input, as proved in the round-trip theorem. -/

/-- Value of a hexadecimal digit character. -/
def hexVal (c : Char) : Option Nat :=
  if 48 ≤ c.toNat ∧ c.toNat ≤ 57 then some (c.toNat - 48)
  else if 97 ≤ c.toNat ∧ c.toNat ≤ 102 then some (c.toNat - 87)
  else if 65 ≤ c.toNat ∧ c.toNat ≤ 70 then some (c.toNat - 55)
  else none

/-- Single-character escape sequences accepted after a backslash. -/
def unescapeChar (c : Char) : Option Char :=
  if c = '"' then some '"'
  else if c = '\\' then some '\\'
  else if c = '/' then some '/'
  else if c = 'n' then some '\n'
  else if c = 'r' then some '\r'
  else if c = 't' then some '\t'
  else if c = 'b' then some (Char.ofNat 8)
  else if c = 'f' then some (Char.ofNat 12)
  else none

/-- Parse the body of a string literal (after the opening quote) up to
and including the closing quote, returning the decoded characters and
the remaining input. -/
def parseStrAux : List Char → Option (List Char × List Char)
  | [] => none
  | c :: rest =>
    if c = '"' then some ([], rest)
    else if c = '\\' then
      match rest with
      | [] => none
      | e :: rest2 =>
        if e = 'u' then
          match rest2 with
          | h1 :: h2 :: h3 :: h4 :: rest3 =>
            match hexVal h1, hexVal h2, hexVal h3, hexVal h4 with
            | some a, some b, some c2, some d =>
              match parseStrAux rest3 with
              | some (tail, r) =>
                some (Char.ofNat (4096 * a + 256 * b + 16 * c2 + d) :: tail, r)
              | none => none
            | _, _, _, _ => none
          | _ => none
        else
          match unescapeChar e with
          | some ec =>
            match parseStrAux rest2 with
            | some (tail, r) => some (ec :: tail, r)
            | none => none
          | none => none
    else
      match parseStrAux rest with
      | some (tail, r) => some (c :: tail, r)
      | none => none

/-- Is the character a decimal digit? -/
def isDig (c : Char) : Bool := 48 ≤ c.toNat && c.toNat ≤ 57

/-- Numeric value of a digit run (most significant first). -/
def digitsToNat (ds : List Char) : Nat :=
  ds.foldl (fun acc c => 10 * acc + (c.toNat - 48)) 0

/-- Parse a maximal nonempty run of decimal digits. -/
def parseDigits (cs : List Char) : Option (Nat × List Char) :=
  let ds := cs.takeWhile isDig
  if ds.isEmpty then none else some (digitsToNat ds, cs.dropWhile isDig)

mutual

/-- Parse one JSON value, returning it with the remaining input. -/
def parseVal : Nat → List Char → Option (Json × List Char)
  | 0, _ => none
  | _ + 1, [] => none
  | fuel + 1, c :: rest =>
    if c = 'n' then
      match rest with
      | 'u' :: 'l' :: 'l' :: r => some (.null, r)
      | _ => none
    else if c = 't' then
      match rest with
      | 'r' :: 'u' :: 'e' :: r => some (.bool true, r)
      | _ => none
    else if c = 'f' then
      match rest with
      | 'a' :: 'l' :: 's' :: 'e' :: r => some (.bool false, r)
      | _ => none
    else if c = '"' then
      match parseStrAux rest with
      | some (cs, r) => some (.str (String.mk cs), r)
      | none => none
    else if c = '[' then
      match rest with
      | [] => none
      | r0 :: rt =>
        if r0 = ']' then some (.arr [], rt)
        else
          match parseItems fuel (r0 :: rt) with
          | some (es, r) => some (.arr es, r)
          | none => none
    else if c = '{' then
      match rest with
      | [] => none
      | r0 :: rt =>
        if r0 = '}' then some (.obj [], rt)
        else
          match parseKVs fuel (r0 :: rt) with
          | some (kvs, r) => some (.obj kvs, r)
          | none => none
    else if c = '-' then
      match parseDigits rest with
      | some (n, r) => some (.num (-(n : Int)), r)
      | none => none
    else if isDig c then
      match parseDigits (c :: rest) with
      | some (n, r) => some (.num (n : Int), r)
      | none => none
    else none

/-- Parse the elements of a nonempty array up to and including the
closing bracket. -/
def parseItems : Nat → List Char → Option (List Json × List Char)
  | 0, _ => none
  | fuel + 1, cs =>
    match parseVal fuel cs with
    | some (v, r) =>
      match r with
      | [] => none
      | r0 :: r2 =>
        if r0 = ',' then
          match parseItems fuel r2 with
          | some (vs, r3) => some (v :: vs, r3)
          | none => none
        else if r0 = ']' then some ([v], r2)
        else none
    | none => none

/-- Parse the entries of a nonempty object up to and including the
closing brace. -/
def parseKVs : Nat → List Char → Option (List (String × Json) × List Char)
  | 0, _ => none
  | fuel + 1, cs =>
    match cs with
    | [] => none
    | c0 :: r =>
      if c0 = '"' then
        match parseStrAux r with
        | some (kcs, r2) =>
          match r2 with
          | [] => none
          | c1 :: r3 =>
            if c1 = ':' then
              match parseVal fuel r3 with
              | some (v, r4) =>
                match r4 with
                | [] => none
                | c2 :: r5 =>
                  if c2 = ',' then
                    match parseKVs fuel r5 with
                    | some (kvs, r6) => some ((String.mk kcs, v) :: kvs, r6)
                    | none => none
                  else if c2 = '}' then some ([(String.mk kcs, v)], r5)
                  else none
              | none => none
            else none
        | none => none
      else none

end

/-- Model of `JSON.parse` restricted to the canonical form emitted by
`Json.stringify`; rejects trailing input. -/
def Json.parse (s : String) : Option Json :=
  match parseVal (2 * s.data.length + 2) s.data with
  | some (v, []) => some v
  | _ => none

example : Json.parse "[5,\"ab\",true,null]" =
    some (.arr [.num 5, .str "ab", .bool true, .null]) := by decide

example : Json.parse "\x7b\"a\":-3,\"b\":[]\x7d" =
    some (.obj [("a", .num (-3)), ("b", .arr [])]) := by decide

example : Json.parse "[5" = none := by decide

/-! ### Round-trip: parse after stringify -/

/-- Modelled from the spec: the closed enumeration of field types of
`FormField` (the `types/form.ts` module referenced by the client is not
among the provided sources; spec section 3 fixes the enumeration). -/
inductive FieldType where
  | text
  | email
  | textarea
  | select
  | radio
  | checkbox
  | number
deriving Repr, DecidableEq

/-- Wire name of a field type. -/
def FieldType.toStr : FieldType → String
  | .text => "text"
  | .email => "email"
  | .textarea => "textarea"
  | .select => "select"
  | .radio => "radio"
  | .checkbox => "checkbox"
  | .number => "number"

/-- Modelled from the spec: one field definition of a form (spec section 3;
`types/form.ts` is not among the provided sources).  `placeholder` and
`options` are optional and absent keys are omitted from the serialized
object, as `JSON.stringify` drops `undefined` properties. -/
structure Field where
  id : String
  type : FieldType
  label : String
  required : Bool
  placeholder : Option String
  options : Option (List String)
deriving Repr, DecidableEq

/-- JSON object for one field, keys in interface order. -/
def Field.toJson (f : Field) : Json :=
  .obj ([("id", .str f.id), ("type", .str f.type.toStr),
    ("label", .str f.label), ("required", .bool f.required)] ++
    (match f.placeholder with
     | some p => [("placeholder", .str p)]
     | none => []) ++
    (match f.options with
     | some os => [("options", .arr (os.map Json.str))]
     | none => []))

/-- JSON array for a field sequence, in order. -/
def encodeFields (fs : List Field) : Json := .arr (fs.map Field.toJson)

/-- Insert an element into a descending-sorted list, after every earlier
element whose key is at least as large (stability). -/
def insertDesc {α : Type} (key : α → Nat) (x : α) : List α → List α
  | [] => [x]
  | y :: ys => if key y ≤ key x then x :: y :: ys else y :: insertDesc key x ys

/-- Stable sort, largest key first; ties keep their input order. -/
def sortDesc {α : Type} (key : α → Nat) : List α → List α
  | [] => []
  | x :: xs => insertDesc key x (sortDesc key xs)

theorem insertDesc_perm {α : Type} (key : α → Nat) (x : α) :
    ∀ l : List α, (insertDesc key x l).Perm (x :: l)
  | [] => List.Perm.refl _
  | y :: ys => by
      unfold insertDesc
      by_cases h : key y ≤ key x
      · simp [h]
      · simp only [if_neg h]
        exact ((insertDesc_perm key x ys).cons y).trans (List.Perm.swap x y ys)

theorem sortDesc_perm {α : Type} (key : α → Nat) :
    ∀ l : List α, (sortDesc key l).Perm l
  | [] => List.Perm.refl _
  | x :: xs => by
      unfold sortDesc
      exact (insertDesc_perm key x (sortDesc key xs)).trans
        ((sortDesc_perm key xs).cons x)

theorem insertDesc_sorted {α : Type} (key : α → Nat) (x : α) :
    ∀ l : List α, l.Pairwise (fun a b => key b ≤ key a) →
      (insertDesc key x l).Pairwise (fun a b => key b ≤ key a)
  | [], _ => by simp [insertDesc]
  | y :: ys, h => by
      unfold insertDesc
      by_cases hxy : key y ≤ key x
      · rw [if_pos hxy]
        refine List.Pairwise.cons ?_ h
        intro z hz
        rcases List.mem_cons.mp hz with rfl | hz
        · exact hxy
        · exact le_trans (List.rel_of_pairwise_cons h hz) hxy
      · rw [if_neg hxy]
        refine List.Pairwise.cons ?_
          (insertDesc_sorted key x ys (List.Pairwise.of_cons h))
        intro z hz
        have hz2 := (insertDesc_perm key x ys).mem_iff.mp hz
        rcases List.mem_cons.mp hz2 with rfl | hz2
        · omega
        · exact List.rel_of_pairwise_cons h hz2

theorem sortDesc_sorted {α : Type} (key : α → Nat) :
    ∀ l : List α, (sortDesc key l).Pairwise (fun a b => key b ≤ key a)
  | [] => by simp [sortDesc]
  | x :: xs => insertDesc_sorted key x (sortDesc key xs)
      (sortDesc_sorted key xs)

theorem insertDesc_filter_eq {α : Type} (key : α → Nat) (x : α) (t : Nat)
    (hx : key x = t) :
    ∀ l : List α, (insertDesc key x l).filter (fun y => key y == t) =
      x :: l.filter (fun y => key y == t)
  | [] => by simp [insertDesc, hx]
  | y :: ys => by
      unfold insertDesc
      by_cases h : key y ≤ key x
      · rw [if_pos h]
        simp [List.filter_cons, hx]
      · rw [if_neg h]
        have hy : ¬ key y = t := by omega
        simp [List.filter_cons, hy, insertDesc_filter_eq key x t hx ys]

theorem insertDesc_filter_ne {α : Type} (key : α → Nat) (x : α) (t : Nat)
    (hx : ¬ key x = t) :
    ∀ l : List α, (insertDesc key x l).filter (fun y => key y == t) =
      l.filter (fun y => key y == t)
  | [] => by simp [insertDesc, hx]
  | y :: ys => by
      unfold insertDesc
      by_cases h : key y ≤ key x
      · rw [if_pos h]
        simp [List.filter_cons, hx]
      · rw [if_neg h]
        simp [List.filter_cons, insertDesc_filter_ne key x t hx ys]

/-- Stability of `sortDesc`: the subsequence at each key value is exactly
the input subsequence at that key value, in input order. -/
theorem sortDesc_filter {α : Type} (key : α → Nat) (t : Nat) :
    ∀ l : List α, (sortDesc key l).filter (fun y => key y == t) =
      l.filter (fun y => key y == t)
  | [] => rfl
  | x :: xs => by
      unfold sortDesc
      by_cases hx : key x = t
      · rw [insertDesc_filter_eq key x t hx, sortDesc_filter key t xs]
        simp [List.filter_cons, hx]
      · rw [insertDesc_filter_ne key x t hx, sortDesc_filter key t xs]
        simp [List.filter_cons, hx]

/-! ### Database state and route handlers (`server/index.js`)

Timestamps (`DATETIME DEFAULT CURRENT_TIMESTAMP` and
`new Date().toISOString()`) are modelled as the clock tick `DB.now`;
`uuidv4()` is modelled by the fresh-id source `DB.nextId`.  The `fields`
column holds serialized JSON text exactly as in the source; the `answers`
column is modelled at the parsed-value level, which is faithful because
`JSON.parse` inverts `JSON.stringify` (theorem `parse_stringify`). -/

/-- A row of the `forms` table. -/
structure FormRow where
  id : Nat
  title : Json
  description : Json
  fields : String
  created_at : Nat
deriving Repr, DecidableEq

/-- A row of the `responses` table. -/
structure RespRow where
  id : Nat
  form_id : Nat
  answers : Json
  submitter_name : Json
  submitter_email : Json
  submitted_at : Nat
deriving Repr, DecidableEq

/-- The store plus its generators; rows are kept in insertion order. -/
structure DB where
  forms : List FormRow
  responses : List RespRow
  nextId : Nat
  now : Nat
deriving Repr, DecidableEq

/-- Outcome of one request: a JSON reply with its HTTP status, a CSV
attachment, or an error reply (including the modelling of an uncaught
exception in a handler as a 500-class failure). -/
inductive ApiOut where
  | json (status : Nat) (body : Json)
  | csv (filename : String) (content : String)
  | err (status : Nat) (msg : String)
deriving Repr, DecidableEq

/-- Every response row references an existing form (the foreign key). -/
def DB.refsOk (db : DB) : Prop :=
  ∀ r ∈ db.responses, ∃ f ∈ db.forms, f.id = r.form_id

/-- Generated ids are fresh: all stored ids are below the id source. -/
def DB.idsFresh (db : DB) : Prop :=
  (∀ f ∈ db.forms, f.id < db.nextId) ∧ (∀ r ∈ db.responses, r.id < db.nextId)

/-- `SELECT * FROM forms WHERE id = ?` via `db.get` (first match). -/
def findForm (db : DB) (id : Nat) : Option FormRow :=
  db.forms.find? (fun r => r.id == id)

/-- Body built for one form row by the list/single-form handlers:
the row spread plus parsed `fields` and `createdAt`; `none` when
`JSON.parse` on the `fields` column would throw. -/
def formRowJson (r : FormRow) : Option Json :=
  (Json.parse r.fields).map (fun fs =>
    .obj [("id", .num r.id), ("title", r.title),
      ("description", r.description), ("fields", fs),
      ("created_at", .num r.created_at), ("createdAt", .num r.created_at)])

/-- Row sequence served by `GET /api/forms`:
`SELECT * FROM forms ORDER BY created_at DESC`. -/
def listFormsRows (db : DB) : List FormRow :=
  sortDesc (fun r => r.created_at) db.forms

/-- Render a row list, failing if any row fails. -/
def formsJson : List FormRow → Option (List Json)
  | [] => some []
  | r :: rs =>
    match formRowJson r with
    | some b =>
      match formsJson rs with
      | some bs => some (b :: bs)
      | none => none
    | none => none

/-- GET /api/forms. -/
def getForms (db : DB) : ApiOut :=
  match formsJson (listFormsRows db) with
  | some bodies => .json 200 (.arr bodies)
  | none => .err 500 "uncaught exception"

/-- GET /api/forms/:id. -/
def getFormById (db : DB) (id : Nat) : ApiOut :=
  match findForm db id with
  | none => .err 404 "Form not found"
  | some row =>
    match formRowJson row with
    | some body => .json 200 body
    | none => .err 500 "uncaught exception"

/-- `Array.isArray` on a possibly-`undefined` value. -/
def isArrOpt : Option Json → Bool
  | some v => v.isArr
  | none => false

/-- `typeof v === 'object'` on a possibly-`undefined` value. -/
def typeofObjectOpt : Option Json → Bool
  | some v => v.typeofObject
  | none => false

/-- The shared request validation of the create and update handlers:
`!title || !fields || !Array.isArray(fields)`. -/
def formValidationFails (title fields : Option Json) : Bool :=
  !truthyOpt title || !truthyOpt fields || !isArrOpt fields

/-- POST /api/forms. -/
def createForm (db : DB) (title description fields : Option Json) :
    ApiOut × DB :=
  if formValidationFails title fields then
    (.err 400 "Title and fields are required", db)
  else
    let id := db.nextId
    let row : FormRow :=
      { id := id, title := title.getD .null,
        description := jsOr description (.str ""),
        fields := Json.stringify (fields.getD .null), created_at := db.now }
    (.json 201 (.obj [("id", .num id), ("title", title.getD .null),
      ("description", jsOr description (.str "")),
      ("fields", fields.getD .null), ("createdAt", .num db.now)]),
     { db with forms := db.forms ++ [row], nextId := db.nextId + 1 })

/-- PUT /api/forms/:id. -/
def updateForm (db : DB) (id : Nat) (title description fields : Option Json) :
    ApiOut × DB :=
  if formValidationFails title fields then
    (.err 400 "Title and fields are required", db)
  else
    let changes := (db.forms.filter (fun r => r.id == id)).length
    if changes = 0 then (.err 404 "Form not found", db)
    else
      (.json 200 (.obj [("id", .num id), ("title", title.getD .null),
        ("description", jsOr description (.str "")),
        ("fields", fields.getD .null)]),
       { db with
         forms := db.forms.map (fun r =>
          if r.id == id then
            { r with
              title := title.getD .null
              description := jsOr description (.str "")
              fields := Json.stringify (fields.getD .null) }
          else r) })

/-- DELETE /api/forms/:id: `DELETE FROM forms WHERE id = ?`.  The schema
declares `FOREIGN KEY (form_id) REFERENCES forms (id) ON DELETE CASCADE`,
but SQLite leaves foreign-key enforcement off unless a connection issues
`PRAGMA foreign_keys = ON`, and the server never does, so the declared
cascade does not fire: the delete removes only the matching forms row and
leaves that form's responses in place as orphans. -/
def deleteForm (db : DB) (id : Nat) : ApiOut × DB :=
  let changes := (db.forms.filter (fun r => r.id == id)).length
  if changes = 0 then (.err 404 "Form not found", db)
  else
    (.json 200 (.obj [("message", .str "Form deleted successfully")]),
     { db with forms := db.forms.filter (fun r => !(r.id == id)) })

/-- Body built for one response row by the per-form responses handler. -/
def respRowJson (r : RespRow) : Json :=
  .obj [("id", .num r.id), ("formId", .num r.form_id),
    ("answers", r.answers), ("submitterName", r.submitter_name),
    ("submitterEmail", r.submitter_email), ("submittedAt", .num r.submitted_at)]

/-- Row sequence served by `GET /api/forms/:id/responses`:
`SELECT * FROM responses WHERE form_id = ? ORDER BY submitted_at DESC`. -/
def respRowsForForm (db : DB) (id : Nat) : List RespRow :=
  sortDesc (fun r => r.submitted_at)
    (db.responses.filter (fun r => r.form_id == id))

/-- GET /api/forms/:id/responses. -/
def getResponsesForForm (db : DB) (id : Nat) : ApiOut :=
  .json 200 (.arr ((respRowsForForm db id).map respRowJson))

/-- One row of the join of `responses` with `forms`. -/
structure JoinRow where
  resp : RespRow
  form_title : Json
deriving Repr, DecidableEq

/-- `FROM responses r JOIN forms f ON r.form_id = f.id`, base order. -/
def joinRows (db : DB) : List JoinRow :=
  db.responses.flatMap (fun r =>
    (db.forms.filter (fun f => f.id == r.form_id)).map
      (fun f => ⟨r, f.title⟩))

/-- Row sequence served by `GET /api/responses`: the join ordered by
`submitted_at DESC`. -/
def allRespRows (db : DB) : List JoinRow :=
  sortDesc (fun jr => jr.resp.submitted_at) (joinRows db)

/-- Body built for one joined row. -/
def joinRowJson (jr : JoinRow) : Json :=
  .obj [("id", .num jr.resp.id), ("formId", .num jr.resp.form_id),
    ("formTitle", jr.form_title), ("answers", jr.resp.answers),
    ("submitterName", jr.resp.submitter_name),
    ("submitterEmail", jr.resp.submitter_email),
    ("submittedAt", .num jr.resp.submitted_at)]

/-- GET /api/responses. -/
def getAllResponses (db : DB) : ApiOut :=
  .json 200 (.arr ((allRespRows db).map joinRowJson))

/-- POST /api/forms/:id/responses. -/
def submitResponse (db : DB) (formId : Nat)
    (answers submitterName submitterEmail : Option Json) : ApiOut × DB :=
  if !truthyOpt answers || !typeofObjectOpt answers then
    (.err 400 "Answers are required", db)
  else
    match findForm db formId with
    | none => (.err 404 "Form not found", db)
    | some _ =>
      let responseId := db.nextId
      let row : RespRow :=
        { id := responseId, form_id := formId,
          answers := answers.getD .null,
          submitter_name := jsOr submitterName .null,
          submitter_email := jsOr submitterEmail .null,
          submitted_at := db.now }
      (.json 201 (.obj ([("id", .num responseId), ("formId", .num formId),
        ("answers", answers.getD .null)] ++
        (match submitterName with
         | some v => [("submitterName", v)]
         | none => []) ++
        (match submitterEmail with
         | some v => [("submitterEmail", v)]
         | none => []) ++
        [("submittedAt", .num db.now)])),
       { db with responses := db.responses ++ [row], nextId := db.nextId + 1 })

/-- Fuel-driven floor base-2 logarithm (`natLog2` supplies fuel `n`, an
upper bound on the recursion depth, so that it evaluates by kernel
reduction). -/
def log2Aux : Nat → Nat → Nat
  | 0, _ => 0
  | fuel + 1, n => if 2 ≤ n then log2Aux fuel (n / 2) + 1 else 0

/-- Floor of the base-2 logarithm of a natural number. -/
def natLog2 (n : Nat) : Nat := log2Aux n n

/-- Is `2 ^ k` at most `n / d`, for an integer exponent `k`? -/
def ratLePow (k : Int) (n d : Nat) : Bool :=
  if 0 ≤ k then Nat.ble (d * 2 ^ k.toNat) n else Nat.ble d (n * 2 ^ (-k).toNat)

/-- Floor of the base-2 logarithm of the rational `n / d` (`n, d` > 0):
the candidate from the integer logarithms, corrected down by one when it
overshoots. -/
def floorLog2Rat (n d : Nat) : Int :=
  let c : Int := (natLog2 n : Int) - (natLog2 d : Int)
  if ratLePow c n d then c else c - 1

/-- Exponent of the unit in the last place of the binary64 value nearest
to `n / d`: 52 below the leading binade, floored at the subnormal spacing
`2 ^ (-1074)`. -/
def dblExp (n d : Nat) : Int := max (floorLog2Rat n d - 52) (-1074)

/-- Round `N / D` to the nearest integer, ties to even. -/
def dblMantissa (N D : Nat) : Nat :=
  if 2 * (N % D) < D then N / D
  else if D < 2 * (N % D) then N / D + 1
  else if (N / D) % 2 = 0 then N / D else N / D + 1

/-- The exact value of the IEEE-754 binary64 (round-to-nearest,
ties-to-even) quotient of the counts `n / d`, as a numerator/denominator
pair.  Faithful through the whole normal and subnormal range; only a
quotient of at least `2 ^ 1024`, which JavaScript would overflow to
Infinity and which would need a response count no store can physically
hold, is rounded here instead. -/
def dblRat (n d : Nat) : Nat × Nat :=
  if 0 ≤ dblExp n d then
    (dblMantissa n (d * 2 ^ (dblExp n d).toNat) * 2 ^ (dblExp n d).toNat, 1)
  else
    (dblMantissa (n * 2 ^ (-(dblExp n d)).toNat) d, 2 ^ (-(dblExp n d)).toNat)

/-- JavaScript `(n / d).toFixed(1)` on a ratio of counts: the quotient is
computed in binary64 and the result is the nearest tenth of that double
value (ties to the larger, per ECMA-262 `Number.prototype.toFixed`),
rendered with one decimal digit.  This can differ from rounding the
exact ratio: the double nearest `7 / 20` lies just below `0.35`, so
`(0.35).toFixed(1)` is `"0.3"`. -/
def toFixed1 (n d : Nat) : String :=
  let t := (20 * (dblRat n d).1 + (dblRat n d).2) / (2 * (dblRat n d).2)
  toString (t / 10) ++ "." ++ toString (t % 10)

/-- The spec's stated rounding, for comparison: the exact rational ratio
rounded to the nearest tenth, half up, rendered with one decimal digit. -/
def exactFixed1 (n d : Nat) : String :=
  let t := (20 * n + d) / (2 * d)
  toString (t / 10) ++ "." ++ toString (t % 10)

theorem dblRat_den_pos (n d : Nat) : 0 < (dblRat n d).2 := by
  unfold dblRat
  by_cases h : 0 ≤ dblExp n d
  · rw [if_pos h]
    exact Nat.one_pos
  · rw [if_neg h]
    exact pow_pos (by omega) _

example : toFixed1 7 20 = "0.3" := by decide

example : toFixed1 3 20 = "0.1" := by decide

example : toFixed1 5 2 = "2.5" := by decide

example : toFixed1 0 3 = "0.0" := by decide

example : exactFixed1 7 20 = "0.4" := by decide

/-- The aggregate served by GET /api/dashboard/stats. -/
structure Stats where
  totalForms : Nat
  totalResponses : Nat
  recentResponses : List JoinRow
  avgResponsesPerForm : String
deriving Repr, DecidableEq

/-- GET /api/dashboard/stats: the two counts, the join ordered by
`submitted_at DESC` with `LIMIT 5`, and the average formatted by
`toFixed(1)` or the string `"0"` when there are no forms. -/
def computeDashboardStats (db : DB) : Stats :=
  let totalForms := db.forms.length
  let totalResponses := db.responses.length
  { totalForms := totalForms, totalResponses := totalResponses
    recentResponses := (allRespRows db).take 5
    avgResponsesPerForm :=
      if totalForms > 0 then toFixed1 totalResponses totalForms else "0" }

/-- `Array.prototype.join(', ')` with `String` coercion of elements
(`null` renders empty). -/
def joinCommaSpace : List Json → String
  | [] => ""
  | e :: es =>
    (match e with
     | .null => ""
     | v => v.coerceStr) ++
      (if es.isEmpty then "" else ", " ++ joinCommaSpace es)

/-- The cell of the CSV export for one field of one response:
`Array.isArray(answer) ? answer.join(', ') : (answer || '')`, coerced to
a string by the quoting template literal. -/
def answerCell : Option Json → String
  | some (.arr xs) => joinCommaSpace xs
  | some v => if v.truthy then v.coerceStr else ""
  | none => ""

/-- The empty store. -/
def dbEmpty : DB := { forms := [], responses := [], nextId := 0, now := 0 }

/-- The single form row of `dbOne`. -/
def rowT : FormRow :=
  { id := 0
    title := .str "T"
    description := .str ""
    fields := Json.stringify (encodeFields [])
    created_at := 1 }

/-- A store with a single form and no responses. -/
def dbOne : DB := { forms := [rowT], responses := [], nextId := 10, now := 5 }

/-- A sample response row against form 0. -/
def respQ (rid : Nat) (ans : String) (ts : Nat) : RespRow :=
  { id := rid
    form_id := 0
    answers := .obj [("q", .str ans)]
    submitter_name := .null
    submitter_email := .null
    submitted_at := ts }

/-- A store with one form and three responses submitted against it. -/
def dbCascade : DB :=
  { forms := [rowT]
    responses := [respQ 1 "a" 2, respQ 2 "b" 3, respQ 3 "c" 4]
    nextId := 20
    now := 9 }

/-! ### Claims -/

/-- C10: in the CSV export, every non-array answer value that is falsy —
the empty string, 0, false, or null (or a missing answer) — is rendered
as the empty cell, because the cell is computed as `answer || ''`. -/
theorem c10_falsy_answer_cells_empty :
    (∀ v : Json, v.isArr = false → v.truthy = false →
      answerCell (some v) = "") ∧
    answerCell (some (.str "")) = "" ∧
    answerCell (some (.num 0)) = "" ∧
    answerCell (some (.bool false)) = "" ∧
    answerCell (some .null) = "" ∧
    answerCell none = "" := by
  refine ⟨?_, rfl, by decide, rfl, rfl, rfl⟩
  intro v harr htr
  cases v with
  | arr es => simp [Json.isArr] at harr
  | null => rfl
  | bool b => simp [answerCell, htr]
  | num n => simp [answerCell, htr]
  | str s => simp [answerCell, htr]
  | obj kvs => simp [answerCell, htr]

/-- Witness for C10 at the concrete falsy value 0. -/
theorem c10_witness :
    (Json.num 0).isArr = false ∧ (Json.num 0).truthy = false ∧
      answerCell (some (.num 0)) = "" :=
  ⟨by decide, by decide,
    c10_falsy_answer_cells_empty.1 (.num 0) (by decide) (by decide)⟩

/-- C9: the answers validation of submitResponse accepts every non-null
value of JavaScript type object, including arrays and the empty object:
such a request is never rejected with the 400 validation error, and on an
existing form the value is stored as-is in the new response row. -/
theorem c9_object_typed_answers_accepted (db : DB) (formId : Nat)
    (a : Json) (subN subE : Option Json)
    (ha : (∃ xs, a = Json.arr xs) ∨ ∃ kvs, a = Json.obj kvs) :
    ((submitResponse db formId (some a) subN subE).1 ≠
      ApiOut.err 400 "Answers are required") ∧
    (∀ fr, findForm db formId = some fr →
      (submitResponse db formId (some a) subN subE).2.responses =
        db.responses ++
          [{ id := db.nextId, form_id := formId, answers := a,
             submitter_name := jsOr subN .null,
             submitter_email := jsOr subE .null,
             submitted_at := db.now }]) := by
  have hcond : (!truthyOpt (some a) || !typeofObjectOpt (some a)) = false := by
    rcases ha with ⟨xs, rfl⟩ | ⟨kvs, rfl⟩ <;>
      simp [truthyOpt, typeofObjectOpt, Json.truthy, Json.typeofObject]
  constructor
  · unfold submitResponse
    rw [hcond]
    simp only [Bool.false_eq_true, if_false, reduceIte]
    cases hf : findForm db formId <;> simp
  · intro fr hfr
    unfold submitResponse
    rw [hcond]
    simp only [Bool.false_eq_true, if_false, reduceIte]
    rw [hfr]
    simp

/-- Witness for C9: an array payload against the one-form store. -/
theorem c9_witness :
    findForm dbOne 0 = some rowT ∧
    (submitResponse dbOne 0 (some (.arr [.str "x"])) none none).2.responses =
      dbOne.responses ++
        [{ id := 10
           form_id := 0
           answers := .arr [.str "x"]
           submitter_name := .null
           submitter_email := .null
           submitted_at := 5 }] := by
  constructor
  · decide
  · exact (c9_object_typed_answers_accepted dbOne 0 (.arr [.str "x"]) none none
      (Or.inl ⟨_, rfl⟩)).2 rowT (by decide)

/-- C5: createForm rejects with the 400 validation error exactly when the
title is empty or absent or the fields value is not an array; in
particular an empty title always fails, and any non-empty title with an
empty fields array succeeds with 201 (no minimum field count). -/
theorem c5_createForm_validation (db : DB) (title description fields : Option Json)
    (htitle : title = none ∨ ∃ s, title = some (Json.str s)) :
    (((createForm db title description fields).1 =
        ApiOut.err 400 "Title and fields are required") ↔
      (title = none ∨ title = some (Json.str "") ∨
        ∀ xs, fields ≠ some (Json.arr xs))) ∧
    (∀ s, s ≠ "" →
      (createForm db (some (Json.str s)) description (some (Json.arr []))).1 =
        ApiOut.json 201 (Json.obj [("id", .num db.nextId), ("title", .str s),
          ("description", jsOr description (.str "")), ("fields", .arr []),
          ("createdAt", .num db.now)])) := by
  constructor
  · rcases htitle with rfl | ⟨s, rfl⟩
    · have hv : formValidationFails none fields = true := by
        simp [formValidationFails, truthyOpt]
      simp [createForm, hv]
    · by_cases hs : s = ""
      · subst hs
        have hv : formValidationFails (some (Json.str "")) fields = true := by
          simp [formValidationFails, truthyOpt, Json.truthy]
        simp [createForm, hv]
      · by_cases harr : ∃ xs, fields = some (Json.arr xs)
        · obtain ⟨xs, rfl⟩ := harr
          have hv : formValidationFails (some (Json.str s))
              (some (Json.arr xs)) = false := by
            simp [formValidationFails, truthyOpt, Json.truthy,
              isArrOpt, Json.isArr, hs]
          constructor
          · intro h
            simp [createForm, hv] at h
          · rintro (h | h | h)
            · cases h
            · simp at h
              exact absurd h hs
            · exact absurd rfl (h xs)
        · have h1 : isArrOpt fields = false := by
            cases fields with
            | none => rfl
            | some v =>
              cases v with
              | arr xs => exact absurd ⟨xs, rfl⟩ harr
              | null => rfl
              | bool b => rfl
              | num m => rfl
              | str t2 => rfl
              | obj kvs => rfl
          have hv : formValidationFails (some (Json.str s)) fields = true := by
            simp [formValidationFails, h1]
          constructor
          · intro _
            refine Or.inr (Or.inr ?_)
            intro xs hxs
            exact harr ⟨xs, hxs⟩
          · intro _
            simp [createForm, hv]
  · intro s hs
    have h2 : formValidationFails (some (Json.str s)) (some (Json.arr [])) = false := by
      simp [formValidationFails, truthyOpt, Json.truthy, isArrOpt, Json.isArr, hs]
    simp [createForm, h2, Option.getD, jsOr]

/-- Witness for C5: a non-empty title with an empty fields array succeeds
against the empty store. -/
theorem c5_witness :
    (some (Json.str "Club Form") = none ∨
      ∃ s, some (Json.str "Club Form") = some (Json.str s)) ∧
    (createForm dbEmpty (some (.str "Club Form")) none (some (.arr []))).1 =
      ApiOut.json 201 (Json.obj [("id", .num 0), ("title", .str "Club Form"),
        ("description", .str ""), ("fields", .arr []),
        ("createdAt", .num 0)]) :=
  ⟨Or.inr ⟨_, rfl⟩,
    (c5_createForm_validation dbEmpty (some (.str "Club Form")) none
      (some (.arr [])) (Or.inr ⟨_, rfl⟩)).2 "Club Form" (by decide)⟩

/-- C8: every listing is stable-sorted newest-first on its timestamp
column: the served sequence is a permutation of the underlying rows,
pairwise non-increasing in the timestamp, and within each timestamp value
it preserves the insertion order of the rows (forms by created_at;
per-form responses and the joined all-responses list by submitted_at). -/
theorem c8_listings_sorted_stable (db : DB) (fid : Nat) :
    ((listFormsRows db).Pairwise (fun a b => b.created_at ≤ a.created_at) ∧
     (listFormsRows db).Perm db.forms ∧
     ∀ t, (listFormsRows db).filter (fun r => r.created_at == t) =
       db.forms.filter (fun r => r.created_at == t)) ∧
    ((respRowsForForm db fid).Pairwise
        (fun a b => b.submitted_at ≤ a.submitted_at) ∧
     (respRowsForForm db fid).Perm
        (db.responses.filter (fun r => r.form_id == fid)) ∧
     ∀ t, (respRowsForForm db fid).filter (fun r => r.submitted_at == t) =
       (db.responses.filter (fun r => r.form_id == fid)).filter
         (fun r => r.submitted_at == t)) ∧
    ((allRespRows db).Pairwise
        (fun a b => b.resp.submitted_at ≤ a.resp.submitted_at) ∧
     (allRespRows db).Perm (joinRows db) ∧
     ∀ t, (allRespRows db).filter (fun jr => jr.resp.submitted_at == t) =
       (joinRows db).filter (fun jr => jr.resp.submitted_at == t)) :=
  ⟨⟨sortDesc_sorted _ _, sortDesc_perm _ _, fun t => sortDesc_filter _ t _⟩,
   ⟨sortDesc_sorted _ _, sortDesc_perm _ _, fun t => sortDesc_filter _ t _⟩,
   ⟨sortDesc_sorted _ _, sortDesc_perm _ _, fun t => sortDesc_filter _ t _⟩⟩

/-- C1: the schema declares `ON DELETE CASCADE` on `responses.form_id`,
documenting the intended cascade, but the server never enables SQLite
foreign-key enforcement (no `PRAGMA foreign_keys = ON`), so the delete
removes only the forms row: on a store with one form and three submitted
responses, deleting the form succeeds, yet all three responses survive as
orphans and the subsequent per-form listing returns them newest-first
instead of the empty sequence the claim asserts. -/
theorem c1_orphaned_responses_remain :
    (deleteForm dbCascade 0).1 =
      ApiOut.json 200 (.obj [("message", .str "Form deleted successfully")]) ∧
    (deleteForm dbCascade 0).2.forms = [] ∧
    (deleteForm dbCascade 0).2.responses = dbCascade.responses ∧
    dbCascade.responses.length = 3 ∧
    getResponsesForForm (deleteForm dbCascade 0).2 0 =
      ApiOut.json 200 (.arr [respRowJson (respQ 3 "c" 4),
        respRowJson (respQ 2 "b" 3), respRowJson (respQ 1 "a" 2)]) :=
  ⟨by decide, by decide, by decide, by decide, by decide⟩

/-- C2 (amended): the dashboard statistics report the total form and
response counts; avgResponsesPerForm is toFixed(1) of the binary64
quotient totalResponses / totalForms — the nearest tenth t of the exact
double value p/q, ties to the larger, characterized by
2q*t ≤ 20p+q < 2q*t+2q — not of the exact ratio: 20 forms with 7
responses yield "0.3"; it is the string "0" when there are no forms and
"2.5" for 2 forms and 5 responses; recentResponses is the first five
entries of the newest-first joined response list, hence at most five
entries, newest first. -/
theorem c2_dashboard_stats_amended (db : DB) :
    (computeDashboardStats db).totalForms = db.forms.length ∧
    (computeDashboardStats db).totalResponses = db.responses.length ∧
    (db.forms.length = 0 →
      (computeDashboardStats db).avgResponsesPerForm = "0") ∧
    (0 < db.forms.length →
      (computeDashboardStats db).avgResponsesPerForm =
        toFixed1 db.responses.length db.forms.length ∧
      ∃ t, toFixed1 db.responses.length db.forms.length =
          toString (t / 10) ++ "." ++ toString (t % 10) ∧
        2 * (dblRat db.responses.length db.forms.length).2 * t ≤
          20 * (dblRat db.responses.length db.forms.length).1 +
            (dblRat db.responses.length db.forms.length).2 ∧
        20 * (dblRat db.responses.length db.forms.length).1 +
            (dblRat db.responses.length db.forms.length).2 <
          2 * (dblRat db.responses.length db.forms.length).2 * t +
            2 * (dblRat db.responses.length db.forms.length).2) ∧
    (db.forms.length = 2 → db.responses.length = 5 →
      (computeDashboardStats db).avgResponsesPerForm = "2.5") ∧
    (db.forms.length = 20 → db.responses.length = 7 →
      (computeDashboardStats db).avgResponsesPerForm = "0.3") ∧
    (computeDashboardStats db).recentResponses = (allRespRows db).take 5 ∧
    (computeDashboardStats db).recentResponses.length ≤ 5 ∧
    (computeDashboardStats db).recentResponses.Pairwise
      (fun a b => b.resp.submitted_at ≤ a.resp.submitted_at) := by
  refine ⟨rfl, rfl, ?_, ?_, ?_, ?_, rfl, ?_, ?_⟩
  · intro h0
    simp [computeDashboardStats, h0]
  · intro hpos
    refine ⟨by simp [computeDashboardStats, hpos], ?_⟩
    refine ⟨(20 * (dblRat db.responses.length db.forms.length).1 +
        (dblRat db.responses.length db.forms.length).2) /
      (2 * (dblRat db.responses.length db.forms.length).2), rfl, ?_, ?_⟩
    · have hdm := Nat.div_add_mod
        (20 * (dblRat db.responses.length db.forms.length).1 +
          (dblRat db.responses.length db.forms.length).2)
        (2 * (dblRat db.responses.length db.forms.length).2)
      exact le_trans (Nat.le_add_right _ _) (le_of_eq hdm)
    · have hq := dblRat_den_pos db.responses.length db.forms.length
      have hdm := Nat.div_add_mod
        (20 * (dblRat db.responses.length db.forms.length).1 +
          (dblRat db.responses.length db.forms.length).2)
        (2 * (dblRat db.responses.length db.forms.length).2)
      have hm := Nat.mod_lt
        (20 * (dblRat db.responses.length db.forms.length).1 +
          (dblRat db.responses.length db.forms.length).2)
        (show 0 < 2 * (dblRat db.responses.length db.forms.length).2 by omega)
      calc 20 * (dblRat db.responses.length db.forms.length).1 +
            (dblRat db.responses.length db.forms.length).2
          = 2 * (dblRat db.responses.length db.forms.length).2 *
              ((20 * (dblRat db.responses.length db.forms.length).1 +
                  (dblRat db.responses.length db.forms.length).2) /
                (2 * (dblRat db.responses.length db.forms.length).2)) +
            (20 * (dblRat db.responses.length db.forms.length).1 +
                (dblRat db.responses.length db.forms.length).2) %
              (2 * (dblRat db.responses.length db.forms.length).2) := hdm.symm
        _ < 2 * (dblRat db.responses.length db.forms.length).2 *
              ((20 * (dblRat db.responses.length db.forms.length).1 +
                  (dblRat db.responses.length db.forms.length).2) /
                (2 * (dblRat db.responses.length db.forms.length).2)) +
            2 * (dblRat db.responses.length db.forms.length).2 :=
            Nat.add_lt_add_left hm _
  · intro h2 h5
    simp [computeDashboardStats, h2, h5]
    decide
  · intro h20 h7
    simp [computeDashboardStats, h20, h7]
    decide
  · exact (List.length_take_le 5 _).trans (by omega)
  · exact List.Pairwise.sublist (List.take_sublist 5 _)
      (sortDesc_sorted (fun jr => jr.resp.submitted_at) (joinRows db))

/-- A second form row. -/
def rowU : FormRow :=
  { id := 1
    title := .str "U"
    description := .str ""
    fields := Json.stringify (encodeFields [])
    created_at := 2 }

/-- A store with two forms and five responses. -/
def dbStats : DB :=
  { forms := [rowT, rowU]
    responses := [respQ 2 "a" 3, respQ 3 "b" 3, respQ 4 "c" 4,
      respQ 5 "d" 5, respQ 6 "e" 6]
    nextId := 50
    now := 9 }

/-- A form row with the given id, used to populate the twenty-form store. -/
def mkFormRow (i : Nat) : FormRow :=
  { id := i
    title := .str "F"
    description := .str ""
    fields := Json.stringify (encodeFields [])
    created_at := i }

/-- A store with twenty forms and seven responses: its exact response
ratio 7 / 20 = 0.35 sits at a decimal tie that binary64 represents from
below. -/
def dbBug : DB :=
  { forms := (List.range 20).map mkFormRow
    responses := (List.range 7).map (fun i => respQ (100 + i) "a" i)
    nextId := 200
    now := 50 }

/-- C2 counterexample: with 20 forms and 7 responses the program's
average is "0.3" — toFixed(1) of the binary64 quotient, which lies just
below 0.35 — while the exact ratio rounded to one decimal place is
"0.4": avgResponsesPerForm is not the exact ratio rounded to one decimal
place. -/
theorem c2_counterexample :
    dbBug.forms.length = 20 ∧ dbBug.responses.length = 7 ∧
    (computeDashboardStats dbBug).avgResponsesPerForm = "0.3" ∧
    exactFixed1 dbBug.responses.length dbBug.forms.length = "0.4" ∧
    (computeDashboardStats dbBug).avgResponsesPerForm ≠
      exactFixed1 dbBug.responses.length dbBug.forms.length :=
  ⟨by decide, by decide, by decide, by decide, by decide⟩

/-- Witness for C2 (amended): two forms and five responses average to
"2.5". -/
theorem c2_witness :
    dbStats.forms.length = 2 ∧ dbStats.responses.length = 5 ∧
    (computeDashboardStats dbStats).avgResponsesPerForm = "2.5" :=
  ⟨by decide, by decide,
    (c2_dashboard_stats_amended dbStats).2.2.2.2.1 (by decide) (by decide)⟩

/-- The answers values the submit handler accepts: arrays and plain
objects (the truthy values of JavaScript type object). -/
def acceptedAnswers (answers : Option Json) : Prop :=
  (∃ xs, answers = some (Json.arr xs)) ∨ ∃ kvs, answers = some (Json.obj kvs)

theorem submit_validation_iff (answers : Option Json) :
    (!truthyOpt answers || !typeofObjectOpt answers) = false ↔
      acceptedAnswers answers := by
  cases answers with
  | none => simp [truthyOpt, typeofObjectOpt, acceptedAnswers]
  | some v =>
    cases v <;>
      simp [truthyOpt, typeofObjectOpt, Json.truthy, Json.typeofObject,
        acceptedAnswers]

/-- C4 (amended): submitResponse fails with 400 and leaves the store
unchanged when answers is missing or not accepted as an object; fails
with 404 and leaves the store unchanged — in particular inserting no
response — when the form does not exist (the existence check precedes the
insert); on success it appends exactly one response row carrying a fresh
id and the current timestamp and replies 201 echoing the submitted
values (falsy submitterName/submitterEmail are stored as null but echoed
as given, so the reply need not equal the stored row's rendering). -/
theorem c4_submitResponse_amended (db : DB) (formId : Nat)
    (answers subN subE : Option Json) :
    (¬acceptedAnswers answers →
      submitResponse db formId answers subN subE =
        (.err 400 "Answers are required", db)) ∧
    (acceptedAnswers answers → findForm db formId = none →
      submitResponse db formId answers subN subE =
        (.err 404 "Form not found", db)) ∧
    (∀ a fr, answers = some a → findForm db formId = some fr →
      acceptedAnswers answers →
      submitResponse db formId answers subN subE =
        (.json 201 (.obj ([("id", .num db.nextId), ("formId", .num formId),
            ("answers", a)] ++
            (match subN with
             | some v => [("submitterName", v)]
             | none => []) ++
            (match subE with
             | some v => [("submitterEmail", v)]
             | none => []) ++
            [("submittedAt", .num db.now)])),
         { db with
           responses := db.responses ++
            [{ id := db.nextId
               form_id := formId
               answers := a
               submitter_name := jsOr subN .null
               submitter_email := jsOr subE .null
               submitted_at := db.now }]
           nextId := db.nextId + 1 })) ∧
    (db.idsFresh → ∀ r ∈ db.responses, r.id ≠ db.nextId) := by
  refine ⟨?_, ?_, ?_, ?_⟩
  · intro hna
    have hc : (!truthyOpt answers || !typeofObjectOpt answers) = true := by
      cases hh : (!truthyOpt answers || !typeofObjectOpt answers) with
      | true => rfl
      | false => exact absurd ((submit_validation_iff answers).mp hh) hna
    unfold submitResponse
    rw [hc]
    rfl
  · intro ha hfind
    have hc := (submit_validation_iff answers).mpr ha
    unfold submitResponse
    rw [hc]
    simp only [Bool.false_eq_true, if_false, reduceIte]
    rw [hfind]
  · intro a fr heq hfind ha
    subst heq
    have hc := (submit_validation_iff (some a)).mpr ha
    unfold submitResponse
    rw [hc]
    simp only [Bool.false_eq_true, if_false, reduceIte]
    rw [hfind]
    rfl
  · intro hfresh r hr heq
    have := hfresh.2 r hr
    omega

/-- C4 counterexample: a submission with submitterName the empty string
succeeds, stores null as the submitter name, but replies with the empty
string: the returned value differs from the stored response's rendering,
so the success reply is not the stored Response. -/
theorem c4_counterexample :
    (submitResponse dbOne 0 (some (.obj [])) (some (.str "")) none).1 =
      ApiOut.json 201 (Json.obj [("id", .num 10), ("formId", .num 0),
        ("answers", .obj []), ("submitterName", .str ""),
        ("submittedAt", .num 5)]) ∧
    (submitResponse dbOne 0 (some (.obj [])) (some (.str "")) none).2.responses =
      [{ id := 10
         form_id := 0
         answers := .obj []
         submitter_name := .null
         submitter_email := .null
         submitted_at := 5 }] ∧
    (submitResponse dbOne 0 (some (.obj [])) (some (.str "")) none).1 ≠
      ApiOut.json 201 (respRowJson
        { id := 10
          form_id := 0
          answers := .obj []
          submitter_name := .null
          submitter_email := .null
          submitted_at := 5 }) :=
  ⟨by decide, by decide, by decide⟩

/-- Witness for C4 (amended) at a concrete successful submission. -/
theorem c4_witness :
    acceptedAnswers (some (.obj [("q", .str "v")])) ∧
    findForm dbOne 0 = some rowT ∧
    (submitResponse dbOne 0 (some (.obj [("q", .str "v")])) none none).1 =
      ApiOut.json 201 (.obj [("id", .num 10), ("formId", .num 0),
        ("answers", .obj [("q", .str "v")]), ("submittedAt", .num 5)]) := by
  refine ⟨Or.inr ⟨_, rfl⟩, by decide, ?_⟩
  have h := (c4_submitResponse_amended dbOne 0 (some (.obj [("q", .str "v")]))
    none none).2.2.1 (.obj [("q", .str "v")]) rowT rfl (by decide)
    (Or.inr ⟨_, rfl⟩)
  rw [h]
  decide

/-- C7 (amended): updateForm applies the same validation as createForm,
fails with 404 leaving the store unchanged when no row matches the id,
and otherwise replaces title, description and fields wholesale on every
matching row while keeping its id and createdAt, leaving all other form
rows and all responses unchanged; the reply carries the updated id,
title, description and fields (but, unlike a read-back of the updated
Form, no createdAt). -/
theorem c7_updateForm_amended (db : DB) (id : Nat)
    (title description fields : Option Json) :
    (((updateForm db id title description fields).1 =
        ApiOut.err 400 "Title and fields are required") ↔
      ((createForm db title description fields).1 =
        ApiOut.err 400 "Title and fields are required")) ∧
    (formValidationFails title fields = false →
      (db.forms.filter (fun r => r.id == id)).length = 0 →
      updateForm db id title description fields =
        (.err 404 "Form not found", db)) ∧
    (formValidationFails title fields = false →
      (db.forms.filter (fun r => r.id == id)).length ≠ 0 →
      updateForm db id title description fields =
        (.json 200 (.obj [("id", .num id), ("title", title.getD .null),
          ("description", jsOr description (.str "")),
          ("fields", fields.getD .null)]),
         { db with
           forms := db.forms.map (fun r =>
            if r.id == id then
              { r with
                title := title.getD .null
                description := jsOr description (.str "")
                fields := Json.stringify (fields.getD .null) }
            else r) })) ∧
    (∀ r ∈ db.forms, r.id ≠ id →
      r ∈ (updateForm db id title description fields).2.forms) ∧
    (∀ r2 ∈ (updateForm db id title description fields).2.forms,
      ∃ r ∈ db.forms, r2.id = r.id ∧ r2.created_at = r.created_at) ∧
    (updateForm db id title description fields).2.responses =
      db.responses := by
  have hupd : ∀ r : FormRow, (if r.id == id then
      { r with
        title := title.getD .null
        description := jsOr description (.str "")
        fields := Json.stringify (fields.getD .null) }
    else r).id = r.id ∧ (if r.id == id then
      { r with
        title := title.getD .null
        description := jsOr description (.str "")
        fields := Json.stringify (fields.getD .null) }
    else r).created_at = r.created_at := by
    intro r
    by_cases h : (r.id == id) = true
    · rw [if_pos h]
      exact ⟨rfl, rfl⟩
    · rw [if_neg h]
      exact ⟨rfl, rfl⟩
  refine ⟨?_, ?_, ?_, ?_, ?_, ?_⟩
  · by_cases hv : formValidationFails title fields = true
    · simp [updateForm, createForm, hv]
    · have hv2 : formValidationFails title fields = false := by
        cases hh : formValidationFails title fields with
        | true => exact absurd hh hv
        | false => rfl
      by_cases hch : (db.forms.filter (fun r => r.id == id)).length = 0
      · simp [updateForm, createForm, hv2, hch]
      · simp [updateForm, createForm, hv2, hch]
  · intro hv hch
    unfold updateForm
    rw [hv]
    simp only [Bool.false_eq_true, if_false, reduceIte]
    rw [if_pos hch]
  · intro hv hch
    unfold updateForm
    rw [hv]
    simp only [Bool.false_eq_true, if_false, reduceIte]
    rw [if_neg hch]
  · intro r hr hne
    by_cases hv : formValidationFails title fields = true
    · simp [updateForm, hv, hr]
    · have hv2 : formValidationFails title fields = false := by
        cases hh : formValidationFails title fields with
        | true => exact absurd hh hv
        | false => rfl
      by_cases hch : (db.forms.filter (fun r => r.id == id)).length = 0
      · simp [updateForm, hv2, hch, hr]
      · unfold updateForm
        rw [hv2]
        simp only [Bool.false_eq_true, if_false, reduceIte]
        rw [if_neg hch]
        simp only []
        refine List.mem_map.mpr ⟨r, hr, ?_⟩
        rw [if_neg (by simp [hne])]
  · intro r2 hr2
    by_cases hv : formValidationFails title fields = true
    · simp only [updateForm, hv, if_pos] at hr2
      exact ⟨r2, by simpa using hr2, rfl, rfl⟩
    · have hv2 : formValidationFails title fields = false := by
        cases hh : formValidationFails title fields with
        | true => exact absurd hh hv
        | false => rfl
      by_cases hch : (db.forms.filter (fun r => r.id == id)).length = 0
      · unfold updateForm at hr2
        rw [hv2] at hr2
        simp only [Bool.false_eq_true, if_false, reduceIte] at hr2
        rw [if_pos hch] at hr2
        exact ⟨r2, by simpa using hr2, rfl, rfl⟩
      · unfold updateForm at hr2
        rw [hv2] at hr2
        simp only [Bool.false_eq_true, if_false, reduceIte] at hr2
        rw [if_neg hch] at hr2
        simp only [] at hr2
        obtain ⟨r, hr, heq⟩ := List.mem_map.mp hr2
        refine ⟨r, hr, ?_, ?_⟩
        · rw [← heq]
          exact (hupd r).1
        · rw [← heq]
          exact (hupd r).2
  · by_cases hv : formValidationFails title fields = true
    · simp [updateForm, hv]
    · have hv2 : formValidationFails title fields = false := by
        cases hh : formValidationFails title fields with
        | true => exact absurd hh hv
        | false => rfl
      by_cases hch : (db.forms.filter (fun r => r.id == id)).length = 0
      · simp [updateForm, hv2, hch]
      · unfold updateForm
        rw [hv2]
        simp only [Bool.false_eq_true, if_false, reduceIte]
        rw [if_neg hch]

/-- C7 counterexample: a successful update replies without a createdAt
(or created_at) entry, while reading the updated form back yields the
full Form including createdAt, so the returned value is not the updated
Form. -/
theorem c7_counterexample :
    (updateForm dbOne 0 (some (.str "T2")) none (some (.arr []))).1 =
      ApiOut.json 200 (.obj [("id", .num 0), ("title", .str "T2"),
        ("description", .str ""), ("fields", .arr [])]) ∧
    getFormById (updateForm dbOne 0 (some (.str "T2")) none
        (some (.arr []))).2 0 =
      ApiOut.json 200 (.obj [("id", .num 0), ("title", .str "T2"),
        ("description", .str ""), ("fields", .arr []),
        ("created_at", .num 1), ("createdAt", .num 1)]) ∧
    (updateForm dbOne 0 (some (.str "T2")) none (some (.arr []))).1 ≠
      getFormById (updateForm dbOne 0 (some (.str "T2")) none
        (some (.arr []))).2 0 :=
  ⟨by decide, by decide, by decide⟩

/-- Witness for C7 (amended) at a concrete successful update. -/
theorem c7_witness :
    formValidationFails (some (.str "T2")) (some (.arr [])) = false ∧
    (dbOne.forms.filter (fun r => r.id == 0)).length ≠ 0 ∧
    (updateForm dbOne 0 (some (.str "T2")) none (some (.arr []))).1 =
      ApiOut.json 200 (.obj [("id", .num 0), ("title", .str "T2"),
        ("description", .str ""), ("fields", .arr [])]) := by
  refine ⟨by decide, by decide, ?_⟩
  have h := (c7_updateForm_amended dbOne 0 (some (.str "T2")) none
    (some (.arr []))).2.2.1 (by decide) (by decide)
  rw [h]
  decide

end Sepnoty
